import Mathlib

/-
Verification development for the SimuLife frontend synchronization and
spatial projection engine.  The definitions below are a shallow embedding of
src/Frontend/src/main.tsx (query client default options, the api service,
query cache updates, the useSimulationWebSocket hook and the
useSimulationControl mutation) and of the two 3D world views
(src/Frontend/src/components/WorldView3D.tsx and the enhanced world view),
translated directly from the TypeScript source.  JavaScript numbers are
modelled as rationals, delays and counters as naturals, and the terrain
height function over the reals.
-/

/-! Data model, from the interface declarations in main.tsx. -/

/-- Aggregate world statistics, the worldStats field of SimulationState. -/
structure WorldStats where
  totalActivities : Rat
  tribalGroups : Rat
  technologies : Rat
  culturalArtifacts : Rat
  deriving DecidableEq

/-- SimulationState from main.tsx: scalar facts about the world at one
observed instant. -/
structure SimulationState where
  day : Rat
  population : Rat
  phase : String
  phaseProgress : Rat
  isRunning : Bool
  speed : Rat
  totalEvents : Rat
  worldStats : WorldStats
  deriving DecidableEq

/-- The 2D simulation space position of an agent. -/
structure Position2D where
  x : Rat
  y : Rat
  deriving DecidableEq

/-- The emotions sub record of Agent. -/
structure AgentEmotions where
  current_mood : String
  dominant_emotion : String
  emotional_stability : Rat
  empathy_level : Rat
  deriving DecidableEq

/-- The lifePurpose sub record of Agent. -/
structure AgentLifePurpose where
  category : Option String
  description : Option String
  clarity : Rat
  fulfillment : Rat
  deriving DecidableEq

/-- The familyBonds sub record of Agent. -/
structure AgentFamilyBonds where
  children : List String
  parents : List String
  siblings : List String
  partner : Option String
  bond_strength : Rat
  deriving DecidableEq

/-- Agent from main.tsx.  The status union type and the string keyed record
types are modelled as strings and association lists. -/
structure Agent where
  id : String
  name : String
  age : Rat
  tribe : String
  position : Position2D
  status : String
  traits : List String
  relationships : List (String × String)
  skills : List (String × Rat)
  memories_count : Rat
  emotions : AgentEmotions
  lifePurpose : AgentLifePurpose
  familyBonds : AgentFamilyBonds
  deriving DecidableEq

/-- SimulationEvent from main.tsx. -/
structure SimulationEvent where
  id : String
  type : String
  title : String
  description : String
  timestamp : Rat
  agents : List String
  phase10_category : Option String
  deriving DecidableEq

/-! The react-query cache slices this client reads and writes.  Keys follow
the query keys used in main.tsx: the simulation key, the agents key, and the
events key paired with a numeric limit. -/

/-- The query cache restricted to the entries this code touches. -/
structure QueryCache where
  simulation : Option SimulationState
  agents : Option (List Agent)
  events : List (Nat × List SimulationEvent)
  deriving DecidableEq

/-- The cache at session start: no query has resolved yet. -/
def emptyCache : QueryCache :=
  { simulation := none, agents := none, events := [] }

/-- setQueryData on the simulation key: unconditional replacement. -/
def setSimulationData (c : QueryCache) (s : SimulationState) : QueryCache :=
  { c with simulation := some s }

/-- setQueryData on the agents key: unconditional replacement. -/
def setAgentsData (c : QueryCache) (a : List Agent) : QueryCache :=
  { c with agents := some a }

/-- setQueryData on an events key: unconditional replacement of the entry
stored under that limit. -/
def setEventsData (c : QueryCache) (limit : Nat) (es : List SimulationEvent) :
    QueryCache :=
  { c with events := (limit, es) :: c.events.filter (fun kv => kv.1 != limit) }

/-- Read the cache entry stored under one events key. -/
def getEventsData (c : QueryCache) (limit : Nat) : Option (List SimulationEvent) :=
  (c.events.find? (fun kv => kv.1 == limit)).map Prod.snd

/-! Query client default options, from the queryClient construction in
main.tsx.  These options sit under defaultOptions.queries; no defaultOptions
entry for mutations exists. -/

/-- staleTime from the query client default options. -/
def queriesStaleTime : Nat := 1000

/-- retryDelay from the query client default options: the delay before the
retry for attemptIndex is min of 1000 * 2 ^ attemptIndex and 30000. -/
def retryDelay (attemptIndex : Nat) : Nat :=
  min (1000 * 2 ^ attemptIndex) 30000

/-- The retry predicate from the query client default options.  The inner
branch only logs a connect message; the returned value is the comparison
failureCount < 3. -/
def queryRetry (failureCount : Nat) (errorMentionsFetch : Bool) : Bool :=
  decide (failureCount < 3)

/-- refetchInterval of useSimulationState. -/
def refetchIntervalSimulation : Nat := 2000

/-- refetchInterval of useAgents. -/
def refetchIntervalAgents : Nat := 3000

/-- refetchInterval of useEvents. -/
def refetchIntervalEvents : Nat := 1000

/-- refetchInterval of usePhase10Stats. -/
def refetchIntervalPhase10 : Nat := 5000

/-! The pull path: apiCall from main.tsx and the query cache update a fetch
produces. -/

/-- A fetch response as apiCall observes it: the ok flag, the status line,
and the outcome of parsing the body as JSON (none when parsing throws). -/
structure ApiResponse (α : Type) where
  ok : Bool
  status : Nat
  statusText : String
  body : Option α
  deriving DecidableEq

/-- apiCall from main.tsx: a response with ok false is turned into a thrown
error naming the status; otherwise the parsed body is returned (a body that
fails to parse also surfaces as a thrown error). -/
def apiCall {α : Type} (r : ApiResponse α) : Except String α :=
  if !r.ok then
    Except.error (("API Error: ") ++ toString r.status ++ (" ") ++ r.statusText)
  else
    match r.body with
    | some v => Except.ok v
    | none => Except.error ("Malformed JSON body")

/-- Library semantics of useQuery around a finished fetch: a successful
queryFn result replaces the cached data for the key, a thrown error leaves
the cached data untouched (react-query keeps the last successful data and
records the error separately). -/
def queryFetchStep (c : QueryCache) (result : Except String SimulationState) :
    QueryCache :=
  match result with
  | Except.ok s => setSimulationData c s
  | Except.error _ => c

/-! The push path: the useSimulationWebSocket message handler. -/

/-- The data field of a simulation_update message: any subset of the three
kind specific sub payloads may be present. -/
structure UpdateData where
  simulation : Option SimulationState
  agents : Option (List Agent)
  events : Option (List SimulationEvent)
  deriving DecidableEq

/-- A decoded push message: a type tag and the update data. -/
structure WsMessage where
  type : String
  data : UpdateData
  deriving DecidableEq

/-- Outcome of JSON.parse on an inbound frame: either the frame is malformed
(parse or field access throws inside the try block) or it yields a message
value. -/
inductive RawFrame where
  | malformed (raw : String)
  | parsed (msg : WsMessage)
  deriving DecidableEq

/-- Console log entries the handler can emit. -/
inductive ClientLog where
  | wsParseError
  | wsConnected
  | wsDisconnected
  deriving DecidableEq

/-- The ws.onmessage handler from useSimulationWebSocket.  A frame that fails
to parse is caught and logged and nothing is applied; a parsed
simulation_update message writes each present sub payload into the query
cache (the events payload is written under the events key with limit 10);
any other message type changes no cache slice. -/
def handleWsMessage (c : QueryCache) (f : RawFrame) : QueryCache × List ClientLog :=
  match f with
  | RawFrame.malformed _ => (c, [ClientLog.wsParseError])
  | RawFrame.parsed m =>
      if m.type = ("simulation_update") then
        let c1 := match m.data.simulation with
          | some s => setSimulationData c s
          | none => c
        let c2 := match m.data.agents with
          | some a => setAgentsData c1 a
          | none => c1
        let c3 := match m.data.events with
          | some es => setEventsData c2 10 es
          | none => c2
        (c3, [])
      else (c, [])

/-- Deliver one snapshot bearing push message to the store. -/
def applySnapshotMessage (c : QueryCache) (s : SimulationState) : QueryCache :=
  (handleWsMessage c (RawFrame.parsed
    { type := ("simulation_update"),
      data := { simulation := some s, agents := none, events := none } })).1

/-- Deliver one events bearing push message to the store. -/
def applyEventsMessage (c : QueryCache) (es : List SimulationEvent) : QueryCache :=
  (handleWsMessage c (RawFrame.parsed
    { type := ("simulation_update"),
      data := { simulation := none, agents := none, events := some es } })).1

/-- A snapshot payload tagged with the freshness marker the specification
attributes to it.  The message handler in the source carries no freshness
field; the tag records the spec level marker so the ordering claim can be
stated against the code. -/
structure FreshSnapshot where
  freshness : Nat
  payload : SimulationState
  deriving DecidableEq

/-- Process a sequence of snapshot payloads in arrival order through the
message handler.  The handler never consults the freshness tag. -/
def processSnapshots (c : QueryCache) (ps : List FreshSnapshot) : QueryCache :=
  ps.foldl (fun acc p => applySnapshotMessage acc p.payload) c

/-! Push adapter lifecycle handlers from useSimulationWebSocket. -/

/-- Side effects a lifecycle handler can request. -/
inductive WsAction where
  | scheduleReconnect (delayMs : Nat)
  | setConnected (b : Bool)
  | setErrorState (msg : Option String)
  deriving DecidableEq

/-- Effects of the ws.onclose handler: record the disconnect, then re-enter
the connect routine after 3000 ms. -/
def onCloseActions : List WsAction :=
  [WsAction.setConnected false, WsAction.scheduleReconnect 3000]

/-- Effects of the catch branch around the WebSocket constructor: record the
error and retry the connect routine after 5000 ms. -/
def onConnectFailureActions : List WsAction :=
  [WsAction.setErrorState (some ("Failed to connect to WebSocket")),
   WsAction.scheduleReconnect 5000]

/-! Outbound push messages. -/

/-- WebSocket readyState values. -/
inductive ReadyState where
  | CONNECTING
  | OPEN
  | CLOSING
  | CLOSED
  deriving DecidableEq

/-- The socket held in wsRef.current. -/
structure WsRef where
  readyState : ReadyState
  deriving DecidableEq

/-- An outbound message: the code only ever sends an object with a type
field. -/
structure WsOutMessage where
  type : String
  deriving DecidableEq

/-- sendMessage from useSimulationWebSocket: transmits only when the current
socket exists and its readyState is OPEN; otherwise it does nothing.  The
returned list holds the frames actually transmitted; the function is total,
so no exception reaches the caller. -/
def sendMessage (ref : Option WsRef) (m : WsOutMessage) : List WsOutMessage :=
  match ref with
  | some ws => if ws.readyState = ReadyState.OPEN then [m] else []
  | none => []

/-- requestUpdate from useSimulationWebSocket: the fire and forget refresh
request. -/
def requestUpdate (ref : Option WsRef) : List WsOutMessage :=
  sendMessage ref { type := ("request_update") }

/-! Command dispatcher: the useSimulationControl mutation. -/

/-- Externally visible effects of one mutation lifecycle. -/
inductive Effect where
  | apiPost (path : String)
  | invalidateQueries (key : String)
  | logSuccess (action : String)
  | logError (action : String)
  deriving DecidableEq

/-- Whether an effect is a transport call. -/
def isApiPost : Effect → Bool
  | Effect.apiPost _ => true
  | _ => false

/-- Outcome of the underlying transport call. -/
inductive MutationOutcome where
  | success
  | failure
  deriving DecidableEq

/-- Retry count for useMutation: the query client default options configure
retry under queries only, so mutations keep the library default of zero
automatic retries. -/
def mutationRetryLimit : Nat := 0

/-- Effects of the onSuccess callback: invalidate the simulation query and
log.  Invalidation marks the query stale; it writes no data itself. -/
def controlOnSuccessEffects (action : String) : List Effect :=
  [Effect.invalidateQueries ("simulation"), Effect.logSuccess action]

/-- Effects of the onError callback: log only. -/
def controlOnErrorEffects (action : String) : List Effect :=
  [Effect.logError action]

/-- One full lifecycle of useSimulationControl.mutate: the mutation function
issues a single POST to the control endpoint, then the success or error
callback runs.  There is no onMutate callback, so no optimistic patch is
applied at dispatch, and neither callback writes the query cache directly. -/
def controlMutate (c : QueryCache) (action : String) (o : MutationOutcome) :
    QueryCache × List Effect :=
  match o with
  | MutationOutcome.success =>
      (c, Effect.apiPost (("/api/control/") ++ action) :: controlOnSuccessEffects action)
  | MutationOutcome.failure =>
      (c, Effect.apiPost (("/api/control/") ++ action) :: controlOnErrorEffects action)

/-! Spatial projection, from AgentSphere in the enhanced world view and
AgentMesh in WorldView3D.tsx. -/

/-- Enhanced world view projection: worldX = (x - 50) * 0.4. -/
def projectX (x : Rat) : Rat := (x - 50) * (2/5)

/-- Enhanced world view projection: worldZ = (y - 50) * 0.4. -/
def projectZ (y : Rat) : Rat := (y - 50) * (2/5)

/-- Simple world view projection (WorldView3D.tsx): worldX = (x - 50) * 0.3. -/
def projectXSimple (x : Rat) : Rat := (x - 50) * (3/10)

/-- Inverse of the enhanced world view projection. -/
def unprojectX (w : Rat) : Rat := w / (2/5) + 50

/-- Terrain plane width: both world views build their ground plane with
PlaneGeometry of width and height 40, centred at the origin. -/
def terrainWidth : Rat := 40

/-- Half extent of the visible terrain: scene coordinates from -20 to 20. -/
def terrainHalfExtent : Rat := terrainWidth / 2

/-- Vertex height from EnhancedTerrain in the enhanced world view: three
closed form trig terms over the vertex coordinates plus the random term
produced by the call to the global random source, scaled by 0.5.  The
argument r stands for that per vertex random draw, which lies in [0, 1). -/
noncomputable def terrainHeight (x y r : ℝ) : ℝ :=
  Real.sin (x * 0.1) * Real.cos (y * 0.1) * 2 +
  Real.sin (x * 0.2) * Real.cos (y * 0.2) * 1 +
  Real.sin (x * 0.05) * Real.cos (y * 0.05) * 3 +
  r * 0.5

/-! Concrete fixtures used by the counterexamples. -/

/-- A snapshot with the run flag set, matching the spec scenario day 10. -/
def snapRunning : SimulationState :=
  { day := 10, population := 0, phase := (""), phaseProgress := 0,
    isRunning := true, speed := 1, totalEvents := 0,
    worldStats := { totalActivities := 0, tribalGroups := 0,
                    technologies := 0, culturalArtifacts := 0 } }

/-- The same snapshot with the run flag cleared. -/
def snapPaused : SimulationState := { snapRunning with isRunning := false }

/-- The spec scenario payload with freshness 7 and the run flag set. -/
def freshSnapA : FreshSnapshot := { freshness := 7, payload := snapRunning }

/-- The spec scenario late payload with freshness 4 and the run flag clear. -/
def freshSnapB : FreshSnapshot := { freshness := 4, payload := snapPaused }

/-- An event with id e1. -/
def eventA : SimulationEvent :=
  { id := ("e1"), type := ("discovery"), title := (""), description := (""),
    timestamp := 1, agents := [], phase10_category := none }

/-- An event with id e2, disjoint from eventA. -/
def eventB : SimulationEvent := { eventA with id := ("e2"), timestamp := 2 }

/-- C1, counterexample.  The claim says a late arriving snapshot whose
freshness 4 is strictly older than the stored freshness 7 is discarded,
leaving the run flag true.  The message handler performs no freshness
comparison: processing the freshness 7 running snapshot and then the
freshness 4 paused snapshot leaves the store holding the paused snapshot,
so the visible run flag is false, not true. -/
theorem C1_counterexample :
    freshSnapA.freshness = 7 ∧ freshSnapB.freshness = 4 ∧
    freshSnapA.payload.isRunning = true ∧ freshSnapB.payload.isRunning = false ∧
    (processSnapshots emptyCache [freshSnapA, freshSnapB]).simulation = some snapPaused ∧
    ((processSnapshots emptyCache [freshSnapA, freshSnapB]).simulation.map
      SimulationState.isRunning) = some false :=
  ⟨rfl, rfl, rfl, rfl, rfl, rfl⟩

/-- C1, amended.  For every sequence of applied snapshot payloads the store
ends holding the last arrived payload (last writer wins by arrival order);
the freshness tags are never consulted and strictly older payloads are not
discarded. -/
theorem C1_amended_lastWriterWins (c : QueryCache) (ps : List FreshSnapshot)
    (p : FreshSnapshot) :
    (processSnapshots c (ps ++ [p])).simulation = some p.payload := by
  unfold processSnapshots
  rw [List.foldl_append]
  rfl

/-- C2, counterexample.  The claim says applying two event batches with
disjoint ids yields the union of the two batches.  The handler writes each
batch wholesale over the events entry: after delivering the batch holding
eventA and then the batch holding eventB, the visible list is exactly the
second batch and eventA is gone. -/
theorem C2_counterexample :
    eventA.id ≠ eventB.id ∧
    getEventsData (applyEventsMessage (applyEventsMessage emptyCache [eventA])
      [eventB]) 10 = some [eventB] ∧
    eventA ∉ (getEventsData (applyEventsMessage
      (applyEventsMessage emptyCache [eventA]) [eventB]) 10).getD [] := by
  refine ⟨by decide, rfl, by decide⟩

/-- C2, amended.  Applying two event batches through the push handler leaves
the visible event list equal to the second batch verbatim: batches replace
the stored entry wholesale, with no merge by id, no union and no client side
cap; whatever ordering the incoming batch carries is preserved unchanged. -/
theorem C2_amended_replaceNotMerge (c : QueryCache)
    (b1 b2 : List SimulationEvent) :
    getEventsData (applyEventsMessage (applyEventsMessage c b1) b2) 10 = some b2 := by
  rfl

/-- C3.  The control mutation has no onMutate callback, so dispatch applies
no optimistic patch, and its onError callback only logs; therefore after a
dispatched command fails, with no intervening authoritative update, every
slice of the view model equals its value at the moment of dispatch. -/
theorem C3_failureLeavesViewModelUnchanged (c : QueryCache) (action : String) :
    (controlMutate c action MutationOutcome.failure).1 = c := rfl

/-- C4, counterexample.  The claim says two invocations of the terrain
heightfield generator produce bit identical output at every vertex.  The
height of each vertex includes the term r * 0.5 with r drawn fresh from the
global random source on every invocation, so at the centre vertex two
invocations whose draws are 0 and one half already disagree. -/
theorem C4_counterexample : terrainHeight 0 0 0 ≠ terrainHeight 0 0 (1/2) := by
  simp [terrainHeight]
  norm_num

/-- C4, amended.  Within one mount the geometry is memoized so re-renders
reuse one generated heightfield, but the generator itself is not bit
identical across invocations: two runs differ at each vertex by exactly the
difference of their random draws scaled by 0.5, hence by strictly less than
one half, and agree exactly on the closed form component. -/
theorem C4_amended_boundedRandomOffset (x y r1 r2 : ℝ)
    (h1 : 0 ≤ r1) (h2 : r1 < 1) (h3 : 0 ≤ r2) (h4 : r2 < 1) :
    terrainHeight x y r1 - terrainHeight x y r2 = (r1 - r2) * 0.5 ∧
    |terrainHeight x y r1 - terrainHeight x y r2| < 1/2 := by
  have hd : terrainHeight x y r1 - terrainHeight x y r2 = (r1 - r2) * 0.5 := by
    unfold terrainHeight
    ring
  refine ⟨hd, ?_⟩
  rw [hd, abs_mul, abs_of_nonneg (by norm_num : (0:ℝ) ≤ 0.5)]
  have habs : |r1 - r2| < 1 := abs_sub_lt_iff.mpr ⟨by linarith, by linarith⟩
  nlinarith [abs_nonneg (r1 - r2)]

/-- C4, witness for the amended theorem at the centre vertex with draws 0
and one half. -/
theorem C4_amended_witness :
    terrainHeight 0 0 0 - terrainHeight 0 0 (1/2) = (0 - 1/2) * 0.5 ∧
    |terrainHeight 0 0 0 - terrainHeight 0 0 (1/2)| < 1/2 :=
  C4_amended_boundedRandomOffset 0 0 0 (1/2)
    (by norm_num) (by norm_num) (by norm_num) (by norm_num)

/-- C5, counterexample.  The claim says every simulation boundary position
maps onto the scene space boundary of the visible extent.  The simple world
view projection scales by 0.3, so the boundary position x = 0 lands at -15,
strictly inside the terrain extent from -20 to 20, not on its boundary. -/
theorem C5_counterexample :
    projectXSimple 0 = -15 ∧
    projectXSimple 0 ≠ -terrainHalfExtent ∧
    projectXSimple 0 ≠ terrainHalfExtent ∧
    -terrainHalfExtent < projectXSimple 0 ∧
    projectXSimple 0 < terrainHalfExtent := by
  unfold projectXSimple terrainHalfExtent terrainWidth
  refine ⟨by norm_num, by norm_num, by norm_num, by norm_num, by norm_num⟩

/-- C5, amended.  Both projections are fixed affine center and scale maps
that never consult the entity distribution: the enhanced view map is
injective, inverse projection recovers the original exactly, and it sends
the simulation range 0 to 100 onto the terrain extent -20 to 20 with the
boundary landing exactly on the terrain boundary; the simple view map sends
the simulation range into -15 to 15, strictly inside the terrain extent and
never beyond it, with boundary positions landing at -15 and 15 rather than
on the terrain boundary. -/
theorem C5_amended_affineProjection (a b x : Rat) (hx0 : 0 ≤ x) (hx1 : x ≤ 100) :
    (projectX a = projectX b → a = b) ∧
    unprojectX (projectX x) = x ∧
    -terrainHalfExtent ≤ projectX x ∧ projectX x ≤ terrainHalfExtent ∧
    projectX 0 = -terrainHalfExtent ∧ projectX 100 = terrainHalfExtent ∧
    -15 ≤ projectXSimple x ∧ projectXSimple x ≤ 15 ∧
    -terrainHalfExtent ≤ projectXSimple x ∧ projectXSimple x ≤ terrainHalfExtent ∧
    projectXSimple 0 = -15 ∧ projectXSimple 100 = 15 := by
  unfold projectX projectXSimple unprojectX terrainHalfExtent terrainWidth
  refine ⟨?_, by ring, by linarith, by linarith, by norm_num, by norm_num,
    by linarith, by linarith, by linarith, by linarith, by norm_num, by norm_num⟩
  intro h
  have h5 : (a - 50) * (2/5) * (5/2) = (b - 50) * (2/5) * (5/2) := by rw [h]
  nlinarith [h5]

/-- C5, witness for the amended theorem at the boundary position x = 100. -/
theorem C5_amended_witness :
    (projectX 1 = projectX 2 → (1 : Rat) = 2) ∧
    unprojectX (projectX 100) = 100 ∧
    -terrainHalfExtent ≤ projectX 100 ∧ projectX 100 ≤ terrainHalfExtent ∧
    projectX 0 = -terrainHalfExtent ∧ projectX 100 = terrainHalfExtent ∧
    -15 ≤ projectXSimple 100 ∧ projectXSimple 100 ≤ 15 ∧
    -terrainHalfExtent ≤ projectXSimple 100 ∧ projectXSimple 100 ≤ terrainHalfExtent ∧
    projectXSimple 0 = -15 ∧ projectXSimple 100 = 15 :=
  C5_amended_affineProjection 1 2 100 (by norm_num) (by norm_num)

/-- C6.  The pull adapter retry delay for the n-th failed attempt is the
base delay 1000 ms doubled per attempt and capped at 30000 ms; a retry is
attempted exactly while fewer than 3 failures have occurred; and every hook
polls on a positive fixed interval, so updates never halt permanently after
retries are exhausted. -/
theorem C6_exponentialBackoffBoundedRetry (n : Nat) (e : Bool) :
    retryDelay n = min (1000 * 2 ^ n) 30000 ∧
    retryDelay n ≤ 30000 ∧
    (queryRetry n e = true ↔ n < 3) ∧
    0 < refetchIntervalSimulation ∧ 0 < refetchIntervalAgents ∧
    0 < refetchIntervalEvents ∧ 0 < refetchIntervalPhase10 := by
  refine ⟨rfl, Nat.min_le_right _ _, ?_, by decide, by decide, by decide, by decide⟩
  simp [queryRetry]

/-- C7.  The push adapter schedules a reconnect after the fixed delay 3000
ms in its close handler and 5000 ms in its failed connect branch, and both
delays are strictly shorter than the pull backoff hard cap of 30000 ms,
which the retry delay function attains from the fifth retry on and never
exceeds. -/
theorem C7_reconnectDelaysBelowPullCap (n : Nat) :
    WsAction.scheduleReconnect 3000 ∈ onCloseActions ∧
    WsAction.scheduleReconnect 5000 ∈ onConnectFailureActions ∧
    retryDelay 5 = 30000 ∧
    retryDelay n ≤ retryDelay 5 ∧
    3000 < retryDelay 5 ∧ 5000 < retryDelay 5 := by
  refine ⟨by decide, by decide, by decide, ?_, by decide, by decide⟩
  have hcap : retryDelay 5 = 30000 := by decide
  rw [hcap]
  exact Nat.min_le_right _ _

/-- C8.  A dispatched control command issues exactly one transport call in
its whole lifecycle, whatever the outcome; the failure callback issues no
transport call of its own, and the mutation carries zero automatic retries,
so a failed command is re-sent only when the operator re-invokes the
action. -/
theorem C8_noAutomaticCommandRetry (c : QueryCache) (action : String)
    (o : MutationOutcome) :
    ((controlMutate c action o).2.countP isApiPost) = 1 ∧
    (controlOnErrorEffects action).countP isApiPost = 0 ∧
    mutationRetryLimit = 0 := by
  refine ⟨?_, rfl, rfl⟩
  cases o <;> rfl

/-- C9.  A push frame whose body fails to parse is caught, logged once, and
leaves every slice of the query cache exactly as it was; a pull response
with an error status makes apiCall surface the thrown API error, and the
query layer then leaves the cached view model untouched, so no slice is
partially applied. -/
theorem C9_malformedPayloadLeavesStateIntact (c : QueryCache) (s : String)
    (r : ApiResponse SimulationState) (hr : r.ok = false) :
    (handleWsMessage c (RawFrame.malformed s)).1 = c ∧
    (handleWsMessage c (RawFrame.malformed s)).2 = [ClientLog.wsParseError] ∧
    apiCall r = Except.error (("API Error: ") ++ toString r.status ++ (" ") ++ r.statusText) ∧
    queryFetchStep c (apiCall r) = c := by
  refine ⟨rfl, rfl, ?_, ?_⟩
  · simp [apiCall, hr]
  · simp [apiCall, hr, queryFetchStep]

/-- A pull response with status 500 and an unparsed body. -/
def resp500 : ApiResponse SimulationState :=
  { ok := false, status := 500, statusText := ("Internal Server Error"),
    body := none }

/-- C9, witness at a garbled push frame and a status 500 pull response. -/
theorem C9_witness :
    (handleWsMessage emptyCache (RawFrame.malformed ("garbage"))).1 = emptyCache ∧
    (handleWsMessage emptyCache (RawFrame.malformed ("garbage"))).2 = [ClientLog.wsParseError] ∧
    apiCall resp500 = Except.error (("API Error: ") ++ toString resp500.status ++ (" ") ++ resp500.statusText) ∧
    queryFetchStep emptyCache (apiCall resp500) = emptyCache :=
  C9_malformedPayloadLeavesStateIntact emptyCache ("garbage") resp500 rfl

/-- C10.  Sending on the push channel is a no-op whenever the socket is
absent or not in the OPEN state: nothing is transmitted, the fire and forget
refresh request included, and since sendMessage is a total function no
exception propagates to the caller. -/
theorem C10_sendRequiresOpenSocket (ref : Option WsRef) (m : WsOutMessage)
    (h : ∀ ws, ref = some ws → ws.readyState ≠ ReadyState.OPEN) :
    sendMessage ref m = [] ∧ requestUpdate ref = [] := by
  cases ref with
  | none => exact ⟨rfl, rfl⟩
  | some ws =>
      have hws := h ws rfl
      constructor
      · simp [sendMessage, hws]
      · simp [requestUpdate, sendMessage, hws]

/-- C10, witness on a closed socket. -/
theorem C10_witness :
    sendMessage (some { readyState := ReadyState.CLOSED })
      ({ type := ("request_update") } : WsOutMessage) = [] ∧
    requestUpdate (some { readyState := ReadyState.CLOSED }) = [] :=
  C10_sendRequiresOpenSocket (some { readyState := ReadyState.CLOSED })
    ({ type := ("request_update") } : WsOutMessage)
    (by intro ws hws; cases hws; decide)
